import Mathlib

/-!
Verification of the perseest query-execution engine.

Shallow embedding of the library sources:
* `PerseestHooks`   embeds `lib/PerseestHooks.js` (the HookChain);
* `PerseestQuery`   embeds `lib/PerseestQuery.js` (query pipeline, the
  `QueryTypeMap` registry and the registered result transforms);
* `PerseestConfig`  embeds the constructor and `cleanup` of
  `lib/PerseestConfig.js` together with the helpers it uses
  (`isIterable`, the `Set.prototype.union` polyfill from `lib/helpers.js`).

JavaScript data values are embedded as the inductive `JsVal` (undefined,
null, booleans, numbers, strings, arrays and plain data objects).  Rows
returned by the executor, entities, keys and thrown error values are all
`JsVal`s; thrown exceptions are modelled with `Except JsVal`.  Functions
attached to the configuration (`row2Entity`, `pgError2Error`, the pool's
`query`) are Lean functions; the registered query types of
`PerseestQuery.types` are the closed enumeration `Transform`, whose
application both to the genuine parameter object (`Transform.applyTop`)
and to a raw row value (`Transform.applyRow`, which is what happens when
`rows.map(query.transform || conf.row2Entity)` feeds a row to one of the
registered transforms) follows the JavaScript member-access and
truthiness rules defined below.

Modelling conventions, stated once:
* mutation of the shared `params` object is state passing: a hook has
  type `σ → Except JsVal σ`; a thrown error abandons the local updates,
  which is observationally adequate for every property proved here
  (no verified scenario mutates `params` and then throws);
* `await` of a promise is sequential composition, which matches the
  engine, whose every suspension point is an explicit await;
* JS `Set` objects are modelled by the list of elements inserted into
  them, without deduplication: membership, the only property the claims
  need, is unaffected, and structural deduplication would be unfaithful
  anyway since JS compares object elements by reference;
* fields of the parameter object that the verified operations never
  read (`ent`, `key`, `kval`, `columns`, `values`) are omitted from the
  `Params` structure; query generators are arbitrary functions of
  `Params`.
-/

/-- Embedded JavaScript data values.  Function values are not part of
the data universe: rows delivered by the executor are plain data, and
the callable slots of the model (hooks, generators, transforms, the
configuration functions) are typed separately. -/
inductive JsVal where
  | undefined
  | null
  | boolean (b : Bool)
  | num (n : Int)
  | str (s : String)
  | arr (elems : List JsVal)
  | obj (fields : List (String × JsVal))

/-- JavaScript truthiness of a value (`NaN` is not modelled). -/
def JsVal.truthy : JsVal → Bool
  | .undefined => false
  | .null => false
  | .boolean b => b
  | .num n => n != 0
  | .str s => s != ""
  | .arr _ => true
  | .obj _ => true

/-- Tests whether a value is the given string; used to embed the
`===` comparisons of `['before','after'].includes(when)`. -/
def JsVal.isStr (v : JsVal) (s : String) : Bool :=
  match v with
  | .str t => t == s
  | _ => false

/-- A thrown `TypeError` carrying a message, as a JS error object. -/
def JsVal.typeError (msg : String) : JsVal :=
  .obj [("name", .str "TypeError"), ("message", .str msg)]

/-- A thrown plain `Error` carrying a message, as a JS error object. -/
def JsVal.errorVal (msg : String) : JsVal :=
  .obj [("name", .str "Error"), ("message", .str msg)]

/-- Member access `v.k`: throws a `TypeError` on `undefined`/`null`,
returns the `length` of strings and arrays, looks fields up on objects
(`undefined` when absent) and yields `undefined` on other primitives. -/
def JsVal.getField : JsVal → String → Except JsVal JsVal
  | .undefined, k =>
      .error (JsVal.typeError ("Cannot read properties of undefined (reading " ++ k ++ ")"))
  | .null, k =>
      .error (JsVal.typeError ("Cannot read properties of null (reading " ++ k ++ ")"))
  | .str s, k => if k == "length" then .ok (.num s.length) else .ok .undefined
  | .arr l, k => if k == "length" then .ok (.num l.length) else .ok .undefined
  | .obj fs, k => .ok ((fs.lookup k).getD .undefined)
  | .num _, _ => .ok .undefined
  | .boolean _, _ => .ok .undefined

/-- Calling a data value as a function: no `JsVal` is callable, so this
always throws the `TypeError` JavaScript raises. -/
def JsVal.callJs (_f : JsVal) (_arg : JsVal) : Except JsVal JsVal :=
  .error (JsVal.typeError "is not a function")

/-- The raw executor response, `{ rows, rowCount }` as delivered by
node-postgres. -/
structure QueryRes where
  rows : List JsVal
  rowCount : Nat

/-- A parameterized statement `{ text, values }` produced by a query
generator. -/
structure Stmt where
  text : String
  values : List JsVal

/-- The slice of the perseest configuration object that `Query.run`
reads: the row mapper, the error normalizer and the connection pool
(`conf.pool.query`, as a function from statements to responses). -/
structure Conf where
  row2Entity : JsVal → JsVal
  pgError2Error : JsVal → JsVal
  pool : Stmt → Except JsVal QueryRes

/-- The registered result transforms of `PerseestQuery.types`
(`singular`, `multiple`, `boolean`).  Ad-hoc transform functions passed
through the constructor's `transform` option are outside this closed
enumeration; every verified query either has one of the registered
types or no transform at all. -/
inductive Transform where
  | singular
  | multiple
  | boolean

/-- The view of the executing query that `params.query` stores and the
registered transforms can observe: its name and its `transform` slot. -/
structure QueryView where
  name : String
  transform : Option Transform

/-- The query parameter bag, restricted to the fields the verified
operations read and write: the configuration plus the three fields
`Query.run` mutates (`query`, `res`, `ret`). -/
structure Params where
  conf : Conf
  query : Option QueryView
  res : Option QueryRes
  ret : JsVal

/-- Fresh parameter bag over a configuration: `query` and `res` are
undefined, `ret` is undefined. -/
def Params.mk0 (c : Conf) : Params :=
  ⟨c, none, none, .undefined⟩

/-- One of the three registered transforms applied to a raw row value.
This is what happens inside the `multiple` transform when
`rows.map(query.transform || conf.row2Entity)` feeds each row to the
function stored in `query.transform`: the function destructures
`{ query, res, conf }` out of the row and proceeds by JS member access,
which for plain data rows throws a `TypeError` at `res.rows`
(resp. `res.rowCount`). -/
def Transform.applyRow (t : Transform) (r : JsVal) : Except JsVal JsVal :=
  match t with
  | .singular => do
      let res ← r.getField "res"
      let conf ← r.getField "conf"
      let rows ← res.getField "rows"
      let len ← rows.getField "length"
      if len.truthy then
        let r2e ← conf.getField "row2Entity"
        let first ←
          match rows with
          | .arr l => Except.ok (l.headD .undefined)
          | _ => Except.ok JsVal.undefined
        r2e.callJs first
      else
        return JsVal.null
  | .multiple => do
      let query ← r.getField "query"
      let res ← r.getField "res"
      let conf ← r.getField "conf"
      let rows ← res.getField "rows"
      let len ← rows.getField "length"
      if len.truthy then
        let tv ← query.getField "transform"
        let f ← if tv.truthy then pure tv else conf.getField "row2Entity"
        match rows with
        | .arr l => (l.mapM f.callJs).map JsVal.arr
        | _ => Except.error (JsVal.typeError "rows.map is not a function")
      else
        return JsVal.arr []
  | .boolean => do
      let res ← r.getField "res"
      let rc ← res.getField "rowCount"
      return JsVal.boolean rc.truthy

/-- One of the three registered transforms applied to the genuine
parameter object, as `Query.run` does with `transform(params)`:
* `singular`: `null` on zero rows, else `conf.row2Entity(res.rows[0])`;
* `multiple`: `[]` on zero rows, else
  `res.rows.map(query.transform || conf.row2Entity)` — when the
  executing query carries a registered transform (it always carries
  `multiple` itself in a run of a `multiple`-typed query) every row is
  fed to that transform via `Transform.applyRow`;
* `boolean`: the truthiness of `res.rowCount`.
Accessing `res.rows`/`res.rowCount` with `params.res` still undefined,
or `query.transform` with `params.query` undefined, throws the
corresponding `TypeError`. -/
def Transform.applyTop (t : Transform) (p : Params) : Except JsVal JsVal :=
  match t with
  | .singular =>
      match p.res with
      | none => .error (JsVal.typeError "Cannot read properties of undefined (reading rows)")
      | some res =>
          match res.rows with
          | [] => .ok .null
          | r :: _ => .ok (p.conf.row2Entity r)
  | .multiple =>
      match p.res with
      | none => .error (JsVal.typeError "Cannot read properties of undefined (reading rows)")
      | some res =>
          match res.rows with
          | [] => .ok (.arr [])
          | _ :: _ =>
              match p.query with
              | none => .error (JsVal.typeError "Cannot read properties of undefined (reading transform)")
              | some qv =>
                  match qv.transform with
                  | some t2 => (res.rows.mapM (Transform.applyRow t2)).map JsVal.arr
                  | none => .ok (.arr (res.rows.map p.conf.row2Entity))
  | .boolean =>
      match p.res with
      | none => .error (JsVal.typeError "Cannot read properties of undefined (reading rowCount)")
      | some res => .ok (.boolean (decide (res.rowCount ≠ 0)))

/-- A hook callback: receives the shared parameter bag, may mutate it
(state passing) and may throw. -/
def Hook (σ : Type) : Type := σ → Except JsVal σ

/-- The hook chain of `lib/PerseestHooks.js`: two ordered sequences of
callbacks, `before` and `after`. -/
structure PerseestHooks (σ : Type) where
  before : List (Hook σ)
  after : List (Hook σ)

/-- The chain a fresh query owns (`new Hooks()`): both sequences empty. -/
def PerseestHooks.empty {σ : Type} : PerseestHooks σ := ⟨[], []⟩

/-- The inner loop of `PerseestHooks.run` over one sequence: each
callback in order, awaited before the next starts; the first thrown or
rejected error aborts the rest and propagates. -/
def PerseestHooks.runList {σ : Type} : List (Hook σ) → σ → Except JsVal σ
  | [], s => .ok s
  | h :: t, s =>
      match h s with
      | .error e => .error e
      | .ok s2 => PerseestHooks.runList t s2

/-- `PerseestHooks.run(when, params)`: a truthy `when` must be the
string `before` or `after` (otherwise a `TypeError` is thrown) and runs
that sequence; a falsy `when` runs `before` fully, then `after`.
The source's argument shuffle for an omitted `params` never fires here
because the parameter bag is always passed (and is a truthy object). -/
def PerseestHooks.run {σ : Type} (h : PerseestHooks σ) (when : JsVal) (s : σ) :
    Except JsVal σ :=
  if when.truthy then
    if when.isStr "before" then PerseestHooks.runList h.before s
    else if when.isStr "after" then PerseestHooks.runList h.after s
    else .error (JsVal.typeError "Temporal trigger must be within [before,after]")
  else
    match PerseestHooks.runList h.before s with
    | .error e => .error e
    | .ok s2 => PerseestHooks.runList h.after s2

/-- `PerseestHooks.add(when, hook)`: a truthy `when` must be `before`
or `after` (else `TypeError`) and the hook is pushed at the tail of
that sequence; a falsy `when` pushes it at the tail of both.  The
argument shuffle for a one-argument call and the non-callable-hook
check never fire here because a callback is always passed. -/
def PerseestHooks.add {σ : Type} (h : PerseestHooks σ) (when : JsVal) (hk : Hook σ) :
    Except JsVal (PerseestHooks σ) :=
  if when.truthy then
    if when.isStr "before" then .ok ⟨h.before ++ [hk], h.after⟩
    else if when.isStr "after" then .ok ⟨h.before, h.after ++ [hk]⟩
    else .error (JsVal.typeError "when must be falsy or a string within [before,after]")
  else .ok ⟨h.before ++ [hk], h.after ++ [hk]⟩

/-- `PerseestHooks.flush(when)`: a truthy `when` must be the string
`before` or `after` (else `TypeError`, and nothing is cleared) and that
sequence is replaced by the empty one; a falsy `when` (including the
omitted-argument default `null`) clears both sequences. -/
def PerseestHooks.flush {σ : Type} (h : PerseestHooks σ) (when : JsVal) :
    Except JsVal (PerseestHooks σ) :=
  if when.truthy then
    if when.isStr "before" then .ok ⟨[], h.after⟩
    else if when.isStr "after" then .ok ⟨h.before, []⟩
    else .error (JsVal.typeError "when can only be before or after")
  else .ok ⟨[], []⟩

/-- The `QueryTypeMap` of `lib/PerseestQuery.js`, a `Map` from type
names to transform functions, modelled by its ordered entry list. -/
abbrev QueryTypeMap (φ : Type) : Type := List (String × φ)

/-- Lookup in the type registry (`Map.prototype.get`). -/
def QueryTypeMap.lookup {φ : Type} : QueryTypeMap φ → String → Option φ
  | [], _ => none
  | (k, v) :: t, s => if k == s then some v else QueryTypeMap.lookup t s

/-- `Map.prototype.set` semantics on the entry list: an existing key
keeps its position and gets the new value, a new key is appended. -/
def QueryTypeMap.setEntry {φ : Type} : QueryTypeMap φ → String → φ → QueryTypeMap φ
  | [], k, v => [(k, v)]
  | (k2, v2) :: t, k, v =>
      if k2 == k then (k, v) :: t else (k2, v2) :: QueryTypeMap.setEntry t k v

/-- `QueryTypeMap.set(key, value)`: throws a `TypeError` unless the key
is a string (checked with `validate.isString`, which accepts the blank
string) and the value is a function (callables are exactly the right
summand, since no `JsVal` is callable); then delegates to `Map.set`,
overwriting any entry already present under the key. -/
def QueryTypeMap.set {φ : Type} (m : QueryTypeMap φ) (key : JsVal)
    (value : JsVal ⊕ φ) : Except JsVal (QueryTypeMap φ) :=
  match key with
  | .str s =>
      match value with
      | .inr f => .ok (QueryTypeMap.setEntry m s f)
      | .inl _ => .error (JsVal.typeError "Value must be a function")
  | _ => .error (JsVal.typeError "Key must be a string")

/-- A perseest query: name, statement generator, optional transform and
its own hook chain. -/
structure PerseestQuery where
  name : String
  generate : Params → Except JsVal Stmt
  transform : Option Transform
  hooks : PerseestHooks Params

/-- The view of a query stored into `params.query` by `run`. -/
def PerseestQuery.view (q : PerseestQuery) : QueryView :=
  ⟨q.name, q.transform⟩

/-- The static registry `PerseestQuery.types`, holding the registered
transforms `singular`, `multiple` and `boolean` in registration order. -/
def PerseestQuery.types : QueryTypeMap Transform :=
  [("singular", .singular), ("multiple", .multiple), ("boolean", .boolean)]

/-- Validity of a query name, the regex `^[a-z_][a-z0-9_]*$` with the
case-insensitive flag. -/
def validQueryName (s : String) : Bool :=
  match s.data with
  | [] => false
  | c :: rest => (c.isAlpha || c == '_') && rest.all (fun d => d.isAlphanum || d == '_')

/-- The `PerseestQuery` constructor: validates the name against the
identifier regex, requires a callable generator, forbids giving both
`transform` and a truthy `type`, requires a truthy `type` to be a
string naming a registered transform (resolved through
`PerseestQuery.types`), and equips the query with a fresh empty hook
chain.  The generator and transform arguments are `Option`s: `none` is
the omitted/null argument, and the non-callable cases of the source's
checks cannot be expressed since the summand types only hold
functions. -/
def PerseestQuery.make (name : JsVal) (generate : Option (Params → Except JsVal Stmt))
    (transform : Option Transform) (type : JsVal) : Except JsVal PerseestQuery :=
  match name with
  | .str s =>
      if validQueryName s then
        match generate with
        | none => .error (JsVal.typeError "Query generator must be a function")
        | some g =>
            if type.truthy then
              match transform with
              | some _ => .error (JsVal.errorVal "Type and Transformer cannot be specified together")
              | none =>
                  match type with
                  | .str ts =>
                      match QueryTypeMap.lookup PerseestQuery.types ts with
                      | some t => .ok ⟨s, g, some t, PerseestHooks.empty⟩
                      | none => .error (JsVal.errorVal ("Type " ++ ts ++ " not found"))
                  | _ => .error (JsVal.typeError "Type must be specified as a string")
            else .ok ⟨s, g, transform, PerseestHooks.empty⟩
      else .error (JsVal.typeError "Invalid query name")
  | _ => .error (JsVal.typeError "Invalid query name")

/-- The fallback used by `run` when the query has no transform:
`({ res }) => params.conf.row2Entity(res.rows[0])` — the row mapper
applied to the first row, which is `undefined` when the row list is
empty (JS out-of-bounds indexing). -/
def PerseestQuery.defaultTransform (p : Params) : Except JsVal JsVal :=
  match p.res with
  | none => .error (JsVal.typeError "Cannot read properties of undefined (reading rows)")
  | some res => .ok (p.conf.row2Entity (res.rows.headD .undefined))

/-- The transform step of `run`: the query's own transform, or the
first-row fallback when it is falsy
(`const transform = this.transform || ...`). -/
def PerseestQuery.applyTransform (q : PerseestQuery) (p : Params) : Except JsVal JsVal :=
  match q.transform with
  | some t => Transform.applyTop t p
  | none => PerseestQuery.defaultTransform p

/-- `PerseestQuery.run(params)`: stores the executing query in
`params.query`, then inside a single try block runs the before-hooks,
generates the statement and awaits `conf.pool.query` storing the raw
response in `params.res`, applies the query's transform (or the
first-row fallback) storing the result in `params.ret`, runs the
after-hooks and returns the current `params.ret`.  The catch block
rethrows every error after passing it through `params.conf.pgError2Error`. -/
def PerseestQuery.run (q : PerseestQuery) (p0 : Params) : Except JsVal (JsVal × Params) :=
  let p := { p0 with query := some q.view }
  let result : Except JsVal (JsVal × Params) :=
    match q.hooks.run (.str "before") p with
    | .error e => .error e
    | .ok p1 =>
        match q.generate p1 with
        | .error e => .error e
        | .ok stmt =>
            match p1.conf.pool stmt with
            | .error e => .error e
            | .ok res =>
                match q.applyTransform { p1 with res := some res } with
                | .error e => .error e
                | .ok ret =>
                    match q.hooks.run (.str "after") { p1 with res := some res, ret := ret } with
                    | .error e => .error e
                    | .ok p4 => .ok (p4.ret, p4)
  match result with
  | .ok r => .ok r
  | .error err => .error (p.conf.pgError2Error err)

/-- `helpers.isIterable`: truthy and implementing the iterable
protocol.  Within the data universe the iterables are the arrays and
the non-blank strings (the blank string is falsy, and plain data
objects carry no iterator). -/
def JsVal.isIterable : JsVal → Bool
  | .arr _ => true
  | .str s => s != ""
  | _ => false

/-- `ids.concat(primaryKey)` with a string second operand, as the
config constructor performs after validating `primaryKey`: arrays get
the string appended as one element, strings concatenate, and every
other receiver throws since it has no `concat` method. -/
def JsVal.concatStr (v : JsVal) (w : String) : Except JsVal JsVal :=
  match v with
  | .arr l => .ok (.arr (l ++ [.str w]))
  | .str s => .ok (.str (s ++ w))
  | _ => .error (JsVal.typeError "ids.concat is not a function")

/-- The elements inserted by `new Set(x)` where `x` is the result of
the `concat` above: the elements of an array, the characters of a
string (as one-character strings).  Per the modelling conventions, the
set is represented by its insertion list. -/
def JsVal.setElems : JsVal → List JsVal
  | .arr l => l
  | .str s => s.data.map (fun c => .str (String.mk [c]))
  | _ => []

/-- The `Set.prototype.union` polyfill of `lib/helpers.js`: requires an
iterable argument (else `TypeError`), then adds every element of the
argument to a copy of the receiver.  Receiver and result are insertion
lists. -/
def setUnion (self : List JsVal) (other : JsVal) : Except JsVal (List JsVal) :=
  if other.isIterable then .ok (self ++ other.setElems)
  else .error (JsVal.typeError "Other collection must be iterable")

/-- The slice of a constructed `PerseestConfig` the verified claims
read: table, primary key and the two column sets (as insertion lists).
The remaining constructor assignments (the default query map, the
identity `row2Entity` and `pgError2Error`) are not recorded here; the
query pipeline model takes those functions as explicit `Conf` fields. -/
structure PerseestConfig where
  table : String
  primaryKey : String
  ids : List JsVal
  columns : List JsVal

/-- The `PerseestConfig` constructor: `table` and `primaryKey` must be
non-blank strings, `ids` and `columns` must be iterable (else
`TypeError`); then `ids` is set to `new Set(ids.concat(primaryKey))`
and `columns` to `ids.union(columns)` via the polyfill. -/
def PerseestConfig.make (table primaryKey ids columns : JsVal) :
    Except JsVal PerseestConfig :=
  match table with
  | .str t =>
      if t = "" then .error (JsVal.typeError "table must be a non-blank string")
      else
        match primaryKey with
        | .str pk =>
            if pk = "" then .error (JsVal.typeError "primaryKey must be a non-blank string")
            else
              if !ids.isIterable then
                .error (JsVal.typeError "ids must be an iterable collection")
              else if !columns.isIterable then
                .error (JsVal.typeError "columns must be an iterable collection")
              else
                match ids.concatStr pk with
                | .error e => .error e
                | .ok cat =>
                    let idSet := cat.setElems
                    match setUnion idSet columns with
                    | .error e => .error e
                    | .ok colSet => .ok ⟨t, pk, idSet, colSet⟩
        | _ => .error (JsVal.typeError "primaryKey must be a non-blank string")
  | _ => .error (JsVal.typeError "table must be a non-blank string")

/-- A JS try/catch: run the body; a thrown error is delivered to the
handler instead of propagating. -/
def jsTry {α : Type} (body : Except JsVal α) (handler : JsVal → Except JsVal α) :
    Except JsVal α :=
  match body with
  | .ok a => .ok a
  | .error e => handler e

/-- `PerseestConfig.cleanup()`: awaits `this.pool.end()` (whose outcome,
including a synchronous throw on a missing pool, is the argument) inside
a try block; on success it returns `null`, and a failure is caught and
returned as a value. -/
def PerseestConfig.cleanup (poolEnd : Except JsVal Unit) : Except JsVal JsVal :=
  jsTry (do let _ ← poolEnd; pure JsVal.null) (fun err => .ok err)

/-- Running a hook chain selected with the literal string `before`
reduces to the inner loop over the `before` sequence. -/
theorem PerseestHooks.run_before_eq {σ : Type} (h : PerseestHooks σ) (s : σ) :
    h.run (.str "before") s = PerseestHooks.runList h.before s := rfl

/-- Running a hook chain selected with the literal string `after`
reduces to the inner loop over the `after` sequence. -/
theorem PerseestHooks.run_after_eq {σ : Type} (h : PerseestHooks σ) (s : σ) :
    h.run (.str "after") s = PerseestHooks.runList h.after s := rfl

/-- The inner hook loop over a concatenation runs the first block to
completion and only then, on success, the second block. -/
theorem PerseestHooks.runList_append {σ : Type} (l1 l2 : List (Hook σ)) (s : σ) :
    PerseestHooks.runList (l1 ++ l2) s =
      match PerseestHooks.runList l1 s with
      | .error e => .error e
      | .ok s2 => PerseestHooks.runList l2 s2 := by
  induction l1 generalizing s with
  | nil => rfl
  | cons h t ih =>
      simp only [List.cons_append, PerseestHooks.runList]
      cases h s with
      | error e => rfl
      | ok s2 => exact ih s2

/-- An observing hook: appends its own index to the state, so that the
final state records the exact execution order. -/
def logHook (i : Nat) : Hook (List Nat) := fun s => .ok (s ++ [i])

/-- Running a list of observing hooks appends their indices to the
state in list order: execution order is insertion order. -/
theorem runList_log (ids : List Nat) (s : List Nat) :
    PerseestHooks.runList (ids.map logHook) s = .ok (s ++ ids) := by
  induction ids generalizing s with
  | nil => simp [PerseestHooks.runList]
  | cons i t ih =>
      simp only [List.map_cons, PerseestHooks.runList, logHook]
      rw [ih]
      simp

/-- Success decomposition of `run`: when every step succeeds, the
outcome is the `ret` field left by the after-hooks, and the steps feed
each other exactly in pipeline order. -/
theorem run_ok_steps (q : PerseestQuery) (p p1 : Params) (stmt : Stmt)
    (res : QueryRes) (ret : JsVal) (p4 : Params)
    (h1 : PerseestHooks.runList q.hooks.before { p with query := some q.view } = .ok p1)
    (h2 : q.generate p1 = .ok stmt)
    (h3 : p1.conf.pool stmt = .ok res)
    (h4 : q.applyTransform { p1 with res := some res } = .ok ret)
    (h5 : PerseestHooks.runList q.hooks.after { p1 with res := some res, ret := ret } = .ok p4) :
    PerseestQuery.run q p = .ok (p4.ret, p4) := by
  simp only [PerseestQuery.run, PerseestHooks.run_before_eq, PerseestHooks.run_after_eq,
    h1, h2, h3, h4, h5]

/-- A before-hook failure makes `run` reject with the normalized error,
whatever the generator, the pool, the transform and the after-hooks
would have done. -/
theorem run_before_err (q : PerseestQuery) (p : Params) (e : JsVal)
    (h1 : PerseestHooks.runList q.hooks.before { p with query := some q.view } = .error e) :
    PerseestQuery.run q p = .error (p.conf.pgError2Error e) := by
  simp only [PerseestQuery.run, PerseestHooks.run_before_eq, h1]

/-- A generator failure (inside the try block) makes `run` reject with
the normalized error, whatever the pool, the transform and the
after-hooks would have done. -/
theorem run_generate_err (q : PerseestQuery) (p p1 : Params) (e : JsVal)
    (h1 : PerseestHooks.runList q.hooks.before { p with query := some q.view } = .ok p1)
    (h2 : q.generate p1 = .error e) :
    PerseestQuery.run q p = .error (p.conf.pgError2Error e) := by
  simp only [PerseestQuery.run, PerseestHooks.run_before_eq, h1, h2]

/-- An executor rejection makes `run` reject with the normalized error,
whatever the transform and the after-hooks would have done. -/
theorem run_pool_err (q : PerseestQuery) (p p1 : Params) (stmt : Stmt) (e : JsVal)
    (h1 : PerseestHooks.runList q.hooks.before { p with query := some q.view } = .ok p1)
    (h2 : q.generate p1 = .ok stmt)
    (h3 : p1.conf.pool stmt = .error e) :
    PerseestQuery.run q p = .error (p.conf.pgError2Error e) := by
  simp only [PerseestQuery.run, PerseestHooks.run_before_eq, h1, h2, h3]

/-- A transform failure makes `run` reject with the normalized error,
whatever the after-hooks would have done. -/
theorem run_transform_err (q : PerseestQuery) (p p1 : Params) (stmt : Stmt)
    (res : QueryRes) (e : JsVal)
    (h1 : PerseestHooks.runList q.hooks.before { p with query := some q.view } = .ok p1)
    (h2 : q.generate p1 = .ok stmt)
    (h3 : p1.conf.pool stmt = .ok res)
    (h4 : q.applyTransform { p1 with res := some res } = .error e) :
    PerseestQuery.run q p = .error (p.conf.pgError2Error e) := by
  simp only [PerseestQuery.run, PerseestHooks.run_before_eq, h1, h2, h3, h4]

/-- An after-hook failure makes `run` reject with the normalized
error. -/
theorem run_after_err (q : PerseestQuery) (p p1 : Params) (stmt : Stmt)
    (res : QueryRes) (ret : JsVal) (e : JsVal)
    (h1 : PerseestHooks.runList q.hooks.before { p with query := some q.view } = .ok p1)
    (h2 : q.generate p1 = .ok stmt)
    (h3 : p1.conf.pool stmt = .ok res)
    (h4 : q.applyTransform { p1 with res := some res } = .ok ret)
    (h5 : PerseestHooks.runList q.hooks.after { p1 with res := some res, ret := ret } = .error e) :
    PerseestQuery.run q p = .error (p.conf.pgError2Error e) := by
  simp only [PerseestQuery.run, PerseestHooks.run_before_eq, PerseestHooks.run_after_eq,
    h1, h2, h3, h4, h5]

/-- C3: in a hook chain, callbacks added to one sequence are appended
in call order; running the chain on that sequence executes them
strictly in insertion order (each awaited before the next, witnessed by
the order of recorded effects), and the first callback that throws
aborts the remaining ones — for every choice of the untouched remainder
the run rejects with exactly that error. -/
theorem claim3_hooks_order_failfast :
    (∀ (σ : Type) (h : PerseestHooks σ) (hk : Hook σ),
        h.add (.str "before") hk = .ok ⟨h.before ++ [hk], h.after⟩) ∧
    (∀ (ids : List Nat) (ha : List (Hook (List Nat))) (s : List Nat),
        PerseestHooks.run ⟨ids.map logHook, ha⟩ (.str "before") s = .ok (s ++ ids)) ∧
    (∀ (σ : Type) (pre : List (Hook σ)) (hk : Hook σ) (post ha : List (Hook σ))
        (s s2 : σ) (e : JsVal),
        PerseestHooks.runList pre s = .ok s2 → hk s2 = .error e →
        PerseestHooks.run ⟨pre ++ hk :: post, ha⟩ (.str "before") s = .error e) ∧
    (∀ (ids : List Nat) (hb : List (Hook (List Nat))) (s : List Nat),
        PerseestHooks.run ⟨hb, ids.map logHook⟩ (.str "after") s = .ok (s ++ ids)) ∧
    (∀ (σ : Type) (pre : List (Hook σ)) (hk : Hook σ) (post hb : List (Hook σ))
        (s s2 : σ) (e : JsVal),
        PerseestHooks.runList pre s = .ok s2 → hk s2 = .error e →
        PerseestHooks.run ⟨hb, pre ++ hk :: post⟩ (.str "after") s = .error e) := by
  refine ⟨?_, ?_, ?_, ?_, ?_⟩
  · intro σ h hk
    rfl
  · intro ids ha s
    rw [PerseestHooks.run_before_eq]
    exact runList_log ids s
  · intro σ pre hk post ha s s2 e hpre hf
    rw [PerseestHooks.run_before_eq]
    show PerseestHooks.runList (pre ++ hk :: post) s = .error e
    rw [PerseestHooks.runList_append]
    simp only [hpre, PerseestHooks.runList, hf]
  · intro ids hb s
    rw [PerseestHooks.run_after_eq]
    exact runList_log ids s
  · intro σ pre hk post hb s s2 e hpre hf
    rw [PerseestHooks.run_after_eq]
    show PerseestHooks.runList (pre ++ hk :: post) s = .error e
    rw [PerseestHooks.runList_append]
    simp only [hpre, PerseestHooks.runList, hf]

/-- A hook that always throws the string error `bad`. -/
def badHook : Hook (List Nat) := fun _ => .error (.str "bad")

/-- Witness for C3: three observing hooks run in insertion order, and
a chain whose second hook throws rejects with that error, the recorded
effects stopping after the first hook. -/
theorem claim3_witness :
    PerseestHooks.run ⟨[1, 2, 3].map logHook, []⟩ (.str "before") ([] : List Nat)
        = .ok [1, 2, 3] ∧
    PerseestHooks.run ⟨[logHook 1, badHook, logHook 2], []⟩ (.str "before") ([] : List Nat)
        = .error (.str "bad") := by
  constructor
  · exact claim3_hooks_order_failfast.2.1 [1, 2, 3] [] []
  · exact claim3_hooks_order_failfast.2.2.1 (List Nat) [logHook 1] badHook [logHook 2] []
      [] [1] (.str "bad") rfl rfl

/-- C7 counterexample: the blank string is neither `before` nor
`after`, yet flushing with it throws nothing — it clears both
sequences (a falsy `when` is treated as the omitted argument). -/
theorem claim7_counterexample :
    PerseestHooks.flush (σ := Nat) ⟨[fun s => .ok s], [fun s => .ok s]⟩ (.str "")
        = .ok ⟨[], []⟩ ∧
    JsVal.isStr (.str "") "before" = false ∧
    JsVal.isStr (.str "") "after" = false :=
  ⟨rfl, rfl, rfl⟩

/-- C7 as amended: a falsy `when` (the omitted-argument default `null`,
or `undefined`) empties both sequences; the string `before` empties
only the before sequence, the string `after` only the after sequence;
and a truthy `when` that is neither string throws a `TypeError`, the
error result carrying no cleared chain. -/
theorem claim7_flush_spec : ∀ (σ : Type) (h : PerseestHooks σ),
    PerseestHooks.flush h .null = .ok ⟨[], []⟩ ∧
    PerseestHooks.flush h .undefined = .ok ⟨[], []⟩ ∧
    PerseestHooks.flush h (.str "before") = .ok ⟨[], h.after⟩ ∧
    PerseestHooks.flush h (.str "after") = .ok ⟨h.before, []⟩ ∧
    (∀ w : JsVal, w.truthy = true → w.isStr "before" = false → w.isStr "after" = false →
        PerseestHooks.flush h w = .error (JsVal.typeError "when can only be before or after")) := by
  intro σ h
  refine ⟨rfl, rfl, rfl, rfl, ?_⟩
  intro w hw hb ha
  simp [PerseestHooks.flush, hw, hb, ha]

/-- Witness for C7: flushing with the number 5 (truthy, not a selector
string) throws the `TypeError`. -/
theorem claim7_witness :
    PerseestHooks.flush (σ := Nat) ⟨[fun s => .ok s], []⟩ (.num 5)
        = .error (JsVal.typeError "when can only be before or after") :=
  (claim7_flush_spec Nat ⟨[fun s => .ok s], []⟩).2.2.2.2 (.num 5) rfl rfl rfl

/-- C9: `cleanup` never rejects: whatever closing the pool does, the
result is a resolution — `null` when the close succeeded, and the close
failure itself returned as a value when it failed. -/
theorem claim9_cleanup_never_throws :
    ∀ (r : Except JsVal Unit),
      (∃ v, PerseestConfig.cleanup r = .ok v) ∧
      PerseestConfig.cleanup (.ok ()) = .ok .null ∧
      (∀ e : JsVal, PerseestConfig.cleanup (.error e) = .ok e) := by
  intro r
  refine ⟨?_, rfl, fun e => rfl⟩
  cases r with
  | ok u => exact ⟨.null, rfl⟩
  | error e => exact ⟨e, rfl⟩

/-- A sample row, `{ a: 1 }`. -/
def rowA : JsVal := .obj [("a", .num 1)]

/-- A second sample row, `{ a: 2 }`. -/
def rowB : JsVal := .obj [("a", .num 2)]

/-- A configuration with identity row mapper and error normalizer whose
pool resolves every statement with the two sample rows. -/
def confTwoRows : Conf := ⟨fun v => v, fun e => e, fun _ => .ok ⟨[rowA, rowB], 2⟩⟩

/-- A configuration with identity row mapper and error normalizer whose
pool resolves every statement with zero rows. -/
def confEmptyRows : Conf := ⟨fun v => v, fun e => e, fun _ => .ok ⟨[], 0⟩⟩

/-- A configuration whose error normalizer wraps the error in a
one-element array, making normalization observable. -/
def confWrapNorm : Conf := ⟨fun v => v, fun e => .arr [e], fun _ => .ok ⟨[], 0⟩⟩

/-- A trivial statement generator. -/
def genNoop : Params → Except JsVal Stmt := fun _ => .ok ⟨"SELECT 1", []⟩

/-- A hook that always throws the string error `boom`. -/
def throwingHook : Hook Params := fun _ => .error (.str "boom")

/-- C1: one `run` stores the executing query's view in `params.query`
and then performs before-hooks, statement generation plus executor call
(response stored in `params.res`), transform (result stored in
`params.ret`) and after-hooks strictly in this order, returning the
final `params.ret`; the first failing step determines the (normalized)
rejection with the later steps universally quantified and
unconstrained — they are never executed and nothing is retried. -/
theorem claim1_run_pipeline :
    (∀ (q : PerseestQuery) (p p1 : Params) (stmt : Stmt) (res : QueryRes)
        (ret : JsVal) (p4 : Params),
        PerseestHooks.runList q.hooks.before { p with query := some q.view } = .ok p1 →
        q.generate p1 = .ok stmt →
        p1.conf.pool stmt = .ok res →
        q.applyTransform { p1 with res := some res } = .ok ret →
        PerseestHooks.runList q.hooks.after { p1 with res := some res, ret := ret } = .ok p4 →
        PerseestQuery.run q p = .ok (p4.ret, p4)) ∧
    (∀ (q : PerseestQuery) (p : Params) (e : JsVal),
        PerseestHooks.runList q.hooks.before { p with query := some q.view } = .error e →
        PerseestQuery.run q p = .error (p.conf.pgError2Error e)) ∧
    (∀ (q : PerseestQuery) (p p1 : Params) (e : JsVal),
        PerseestHooks.runList q.hooks.before { p with query := some q.view } = .ok p1 →
        q.generate p1 = .error e →
        PerseestQuery.run q p = .error (p.conf.pgError2Error e)) ∧
    (∀ (q : PerseestQuery) (p p1 : Params) (stmt : Stmt) (e : JsVal),
        PerseestHooks.runList q.hooks.before { p with query := some q.view } = .ok p1 →
        q.generate p1 = .ok stmt →
        p1.conf.pool stmt = .error e →
        PerseestQuery.run q p = .error (p.conf.pgError2Error e)) ∧
    (∀ (q : PerseestQuery) (p p1 : Params) (stmt : Stmt) (res : QueryRes) (e : JsVal),
        PerseestHooks.runList q.hooks.before { p with query := some q.view } = .ok p1 →
        q.generate p1 = .ok stmt →
        p1.conf.pool stmt = .ok res →
        q.applyTransform { p1 with res := some res } = .error e →
        PerseestQuery.run q p = .error (p.conf.pgError2Error e)) ∧
    (∀ (q : PerseestQuery) (p p1 : Params) (stmt : Stmt) (res : QueryRes)
        (ret : JsVal) (e : JsVal),
        PerseestHooks.runList q.hooks.before { p with query := some q.view } = .ok p1 →
        q.generate p1 = .ok stmt →
        p1.conf.pool stmt = .ok res →
        q.applyTransform { p1 with res := some res } = .ok ret →
        PerseestHooks.runList q.hooks.after { p1 with res := some res, ret := ret } = .error e →
        PerseestQuery.run q p = .error (p.conf.pgError2Error e)) :=
  ⟨run_ok_steps, run_before_err, run_generate_err, run_pool_err, run_transform_err,
    run_after_err⟩

/-- Witness for C1: a hookless query over the two-row pool succeeds
with the first row, and the same query with a throwing before-hook
rejects with that error (identity normalizer), nothing else running. -/
theorem claim1_witness :
    PerseestQuery.run ⟨"q", genNoop, none, PerseestHooks.empty⟩ (Params.mk0 confTwoRows)
        = .ok (rowA, ⟨confTwoRows, some ⟨"q", none⟩, some ⟨[rowA, rowB], 2⟩, rowA⟩) ∧
    PerseestQuery.run ⟨"q", genNoop, none, ⟨[throwingHook], []⟩⟩ (Params.mk0 confTwoRows)
        = .error (.str "boom") := by
  constructor
  · exact claim1_run_pipeline.1 ⟨"q", genNoop, none, PerseestHooks.empty⟩
      (Params.mk0 confTwoRows) ⟨confTwoRows, some ⟨"q", none⟩, none, .undefined⟩
      ⟨"SELECT 1", []⟩ ⟨[rowA, rowB], 2⟩ rowA
      ⟨confTwoRows, some ⟨"q", none⟩, some ⟨[rowA, rowB], 2⟩, rowA⟩ rfl rfl rfl rfl rfl
  · exact claim1_run_pipeline.2.1 ⟨"q", genNoop, none, ⟨[throwingHook], []⟩⟩
      (Params.mk0 confTwoRows) (.str "boom") rfl

/-- C2 counterexample: a before-hook throws the string `boom` under a
configuration whose normalizer wraps errors in an array; `run` rejects
with the wrapped error, not with the hook's error as-is — so hook
errors do pass through the normalizer. -/
theorem claim2_counterexample :
    PerseestQuery.run ⟨"q", genNoop, none, ⟨[throwingHook], []⟩⟩ (Params.mk0 confWrapNorm)
        = .error (.arr [.str "boom"]) ∧
    JsVal.arr [.str "boom"] ≠ .str "boom" :=
  ⟨rfl, fun h => JsVal.noConfusion h⟩

/-- C2 as amended: every rejection of `run` — whether raised by a
before-hook, the generator, the executor, the transform or an
after-hook — is the image of the underlying error under the
configuration's `pgError2Error`; no pipeline error bypasses the
normalizer. -/
theorem claim2_errors_normalized :
    ∀ (q : PerseestQuery) (p : Params) (r : JsVal),
      PerseestQuery.run q p = .error r → ∃ e, r = p.conf.pgError2Error e := by
  intro q p r h
  rcases hb : PerseestHooks.runList q.hooks.before { p with query := some q.view } with e | p1
  · rw [run_before_err q p e hb] at h
    exact ⟨e, (Except.error.inj h).symm⟩
  · rcases hg : q.generate p1 with e | stmt
    · rw [run_generate_err q p p1 e hb hg] at h
      exact ⟨e, (Except.error.inj h).symm⟩
    · rcases hp : p1.conf.pool stmt with e | res
      · rw [run_pool_err q p p1 stmt e hb hg hp] at h
        exact ⟨e, (Except.error.inj h).symm⟩
      · rcases ht : q.applyTransform { p1 with res := some res } with e | ret
        · rw [run_transform_err q p p1 stmt res e hb hg hp ht] at h
          exact ⟨e, (Except.error.inj h).symm⟩
        · rcases ha : PerseestHooks.runList q.hooks.after
              { p1 with res := some res, ret := ret } with e | p4
          · rw [run_after_err q p p1 stmt res ret e hb hg hp ht ha] at h
            exact ⟨e, (Except.error.inj h).symm⟩
          · rw [run_ok_steps q p p1 stmt res ret p4 hb hg hp ht ha] at h
            exact Except.noConfusion h

/-- Witness for C2: the wrapped hook error of the counterexample
scenario is indeed in the image of the normalizer. -/
theorem claim2_witness :
    ∃ e, JsVal.arr [.str "boom"] = (Params.mk0 confWrapNorm).conf.pgError2Error e :=
  claim2_errors_normalized ⟨"q", genNoop, none, ⟨[throwingHook], []⟩⟩
    (Params.mk0 confWrapNorm) (.arr [.str "boom"]) rfl

/-- C10: a query with neither transform nor type, run against an
executor response with an empty row list, resolves with the row mapper
applied to the absent first row (JS indexing of an empty array gives
`undefined`); under the identity row mapper that value is `undefined`,
which is not `null` — and the run is a resolution, not an error. -/
theorem claim10_default_empty_rows :
    (∀ (n : String) (g : Params → Except JsVal Stmt) (stmt : Stmt)
        (m nm : JsVal → JsVal) (rc : Nat),
        g ⟨⟨m, nm, fun _ => .ok ⟨[], rc⟩⟩, some ⟨n, none⟩, none, .undefined⟩ = .ok stmt →
        PerseestQuery.run ⟨n, g, none, PerseestHooks.empty⟩
            (Params.mk0 ⟨m, nm, fun _ => .ok ⟨[], rc⟩⟩)
          = .ok (m .undefined,
              ⟨⟨m, nm, fun _ => .ok ⟨[], rc⟩⟩, some ⟨n, none⟩, some ⟨[], rc⟩, m .undefined⟩)) ∧
    JsVal.undefined ≠ JsVal.null := by
  constructor
  · intro n g stmt m nm rc hg
    exact run_ok_steps ⟨n, g, none, PerseestHooks.empty⟩
      (Params.mk0 ⟨m, nm, fun _ => .ok ⟨[], rc⟩⟩)
      ⟨⟨m, nm, fun _ => .ok ⟨[], rc⟩⟩, some ⟨n, none⟩, none, .undefined⟩ stmt ⟨[], rc⟩ (m .undefined)
      ⟨⟨m, nm, fun _ => .ok ⟨[], rc⟩⟩, some ⟨n, none⟩, some ⟨[], rc⟩, m .undefined⟩
      rfl hg rfl rfl rfl
  · exact fun h => JsVal.noConfusion h

/-- Witness for C10: the hookless transformless query over the
empty-row pool with identity mapper resolves with `undefined`. -/
theorem claim10_witness :
    PerseestQuery.run ⟨"fetch", genNoop, none, PerseestHooks.empty⟩ (Params.mk0 confEmptyRows)
        = .ok (.undefined, ⟨confEmptyRows, some ⟨"fetch", none⟩, some ⟨[], 0⟩, .undefined⟩) :=
  claim10_default_empty_rows.1 "fetch" genNoop ⟨"SELECT 1", []⟩ (fun v => v) (fun e => e) 0 rfl

/-- C4 counterexample: a fetch query built with neither transform nor
type, run against a two-row response, raises no error: it resolves with
the (identity-mapped) first row.  The claim's asserted divergence from
the `singular` type does not exist in this code revision. -/
theorem claim4_counterexample :
    PerseestQuery.run ⟨"fetch", genNoop, none, PerseestHooks.empty⟩ (Params.mk0 confTwoRows)
        = .ok (rowA, ⟨confTwoRows, some ⟨"fetch", none⟩, some ⟨[rowA, rowB], 2⟩, rowA⟩) :=
  rfl

/-- C4 as amended: on a two-row response a fetch query built with
neither transform nor type resolves with the row-mapped first row, and
a query built with type `singular` resolves with the very same
row-mapped first row: the two behave identically there (they differ
only on zero rows). -/
theorem claim4_two_rows_first_row :
    ∀ (r1 r2 : JsVal) (rc : Nat) (m nm : JsVal → JsVal)
      (g : Params → Except JsVal Stmt) (qD qS : PerseestQuery) (stmtD stmtS : Stmt),
      PerseestQuery.make (.str "fetch") (some g) none .null = .ok qD →
      PerseestQuery.make (.str "fetch") (some g) none (.str "singular") = .ok qS →
      g ⟨⟨m, nm, fun _ => .ok ⟨[r1, r2], rc⟩⟩, some ⟨"fetch", none⟩, none, .undefined⟩ = .ok stmtD →
      g ⟨⟨m, nm, fun _ => .ok ⟨[r1, r2], rc⟩⟩, some ⟨"fetch", some .singular⟩, none, .undefined⟩
          = .ok stmtS →
      PerseestQuery.run qD (Params.mk0 ⟨m, nm, fun _ => .ok ⟨[r1, r2], rc⟩⟩)
          = .ok (m r1, ⟨⟨m, nm, fun _ => .ok ⟨[r1, r2], rc⟩⟩, some ⟨"fetch", none⟩,
              some ⟨[r1, r2], rc⟩, m r1⟩) ∧
      PerseestQuery.run qS (Params.mk0 ⟨m, nm, fun _ => .ok ⟨[r1, r2], rc⟩⟩)
          = .ok (m r1, ⟨⟨m, nm, fun _ => .ok ⟨[r1, r2], rc⟩⟩, some ⟨"fetch", some .singular⟩,
              some ⟨[r1, r2], rc⟩, m r1⟩) := by
  intro r1 r2 rc m nm g qD qS stmtD stmtS hD hS hgD hgS
  have hqD : (⟨"fetch", g, none, PerseestHooks.empty⟩ : PerseestQuery) = qD := Except.ok.inj hD
  have hqS : (⟨"fetch", g, some .singular, PerseestHooks.empty⟩ : PerseestQuery) = qS :=
    Except.ok.inj hS
  subst hqD hqS
  constructor
  · exact run_ok_steps _ _ ⟨⟨m, nm, fun _ => .ok ⟨[r1, r2], rc⟩⟩, some ⟨"fetch", none⟩,
      none, .undefined⟩ stmtD ⟨[r1, r2], rc⟩ (m r1)
      ⟨⟨m, nm, fun _ => .ok ⟨[r1, r2], rc⟩⟩, some ⟨"fetch", none⟩, some ⟨[r1, r2], rc⟩, m r1⟩
      rfl hgD rfl rfl rfl
  · exact run_ok_steps _ _ ⟨⟨m, nm, fun _ => .ok ⟨[r1, r2], rc⟩⟩, some ⟨"fetch", some .singular⟩,
      none, .undefined⟩ stmtS ⟨[r1, r2], rc⟩ (m r1)
      ⟨⟨m, nm, fun _ => .ok ⟨[r1, r2], rc⟩⟩, some ⟨"fetch", some .singular⟩,
        some ⟨[r1, r2], rc⟩, m r1⟩
      rfl hgS rfl rfl rfl

/-- Witness for C4: concrete two-row pool delivering the numbers 7 and
8 as rows; both the transformless and the singular-typed fetch query
resolve with 7. -/
theorem claim4_witness :
    PerseestQuery.run ⟨"fetch", genNoop, none, PerseestHooks.empty⟩
        (Params.mk0 ⟨fun v => v, fun e => e, fun _ => .ok ⟨[.num 7, .num 8], 2⟩⟩)
      = .ok (.num 7, ⟨⟨fun v => v, fun e => e, fun _ => .ok ⟨[.num 7, .num 8], 2⟩⟩,
          some ⟨"fetch", none⟩, some ⟨[.num 7, .num 8], 2⟩, .num 7⟩) ∧
    PerseestQuery.run ⟨"fetch", genNoop, some .singular, PerseestHooks.empty⟩
        (Params.mk0 ⟨fun v => v, fun e => e, fun _ => .ok ⟨[.num 7, .num 8], 2⟩⟩)
      = .ok (.num 7, ⟨⟨fun v => v, fun e => e, fun _ => .ok ⟨[.num 7, .num 8], 2⟩⟩,
          some ⟨"fetch", some .singular⟩, some ⟨[.num 7, .num 8], 2⟩, .num 7⟩) :=
  claim4_two_rows_first_row (.num 7) (.num 8) 2 (fun v => v) (fun e => e) genNoop
    ⟨"fetch", genNoop, none, PerseestHooks.empty⟩
    ⟨"fetch", genNoop, some .singular, PerseestHooks.empty⟩
    ⟨"SELECT 1", []⟩ ⟨"SELECT 1", []⟩ rfl rfl rfl rfl

/-- C5: the registry resolves `multiple` to the multiple transform; a
query constructed with type `multiple` carries that transform itself in
its `transform` slot, so inside `run` the expression
`rows.map(query.transform || conf.row2Entity)` feeds every row to the
multiple transform instead of the row mapper: with a non-empty response
the first row's `res` member is `undefined` and the run rejects with a
`TypeError`, while a zero-row response yields the empty array. -/
theorem claim5_multiple_self_application :
    QueryTypeMap.lookup PerseestQuery.types "multiple" = some .multiple ∧
    PerseestQuery.make (.str "q") (some genNoop) none (.str "multiple")
        = .ok ⟨"q", genNoop, some .multiple, PerseestHooks.empty⟩ ∧
    PerseestQuery.run ⟨"q", genNoop, some .multiple, PerseestHooks.empty⟩
        (Params.mk0 confTwoRows)
      = .error (JsVal.typeError "Cannot read properties of undefined (reading rows)") ∧
    PerseestQuery.run ⟨"q", genNoop, some .multiple, PerseestHooks.empty⟩
        (Params.mk0 confEmptyRows)
      = .ok (.arr [], ⟨confEmptyRows, some ⟨"q", some .multiple⟩, some ⟨[], 0⟩, .arr []⟩) :=
  ⟨rfl, rfl, rfl, rfl⟩

/-- Looking a key up right after `Map.set` stored it yields the stored
value (the entry under an already-present key is overwritten). -/
theorem lookup_setEntry {φ : Type} (m : QueryTypeMap φ) (s : String) (f : φ) :
    QueryTypeMap.lookup (QueryTypeMap.setEntry m s f) s = some f := by
  induction m with
  | nil => simp [QueryTypeMap.setEntry, QueryTypeMap.lookup]
  | cons hd tl ih =>
      obtain ⟨k2, v2⟩ := hd
      by_cases hk : (k2 == s) = true
      · simp [QueryTypeMap.setEntry, QueryTypeMap.lookup, hk]
      · simp [QueryTypeMap.setEntry, QueryTypeMap.lookup, hk, ih]

/-- C6 counterexample: registering under the blank string key succeeds
(the registry only checks that the key is a string, not that it is
non-blank), and the entry is retrievable. -/
theorem claim6_counterexample :
    QueryTypeMap.set ([] : QueryTypeMap Transform) (.str "") (.inr .boolean)
        = .ok [("", .boolean)] ∧
    QueryTypeMap.lookup [("", Transform.boolean)] "" = some .boolean :=
  ⟨rfl, rfl⟩

/-- C6 as amended: registering an entry succeeds exactly when the key
is a string (a blank string is accepted) and the value is callable;
storing under a key follows `Map.set`, so a later lookup of that key
returns the newly stored value, overwriting any previous entry. -/
theorem claim6_set_spec :
    ∀ (φ : Type) (m : QueryTypeMap φ) (key : JsVal) (value : JsVal ⊕ φ),
      ((∃ m2, QueryTypeMap.set m key value = .ok m2) ↔
        (∃ s, key = .str s) ∧ (∃ f, value = .inr f)) ∧
      (∀ (s : String) (f : φ),
        QueryTypeMap.set m (.str s) (.inr f) = .ok (QueryTypeMap.setEntry m s f)) ∧
      (∀ (s : String) (f : φ),
        QueryTypeMap.lookup (QueryTypeMap.setEntry m s f) s = some f) := by
  intro φ m key value
  refine ⟨⟨?_, ?_⟩, fun s f => rfl, fun s f => lookup_setEntry m s f⟩
  · rintro ⟨m2, h⟩
    cases key with
    | str s =>
        cases value with
        | inr f => exact ⟨⟨s, rfl⟩, ⟨f, rfl⟩⟩
        | inl v => exact Except.noConfusion h
    | undefined => exact Except.noConfusion h
    | null => exact Except.noConfusion h
    | boolean b => exact Except.noConfusion h
    | num n => exact Except.noConfusion h
    | arr l => exact Except.noConfusion h
    | obj fs => exact Except.noConfusion h
  · rintro ⟨⟨s, rfl⟩, ⟨f, rfl⟩⟩
    exact ⟨QueryTypeMap.setEntry m s f, rfl⟩

/-- Witness for C6: over the real registry, storing a new function
under the already-present key `singular` succeeds and a lookup then
returns the new function. -/
theorem claim6_witness :
    QueryTypeMap.set PerseestQuery.types (.str "singular") (.inr Transform.boolean)
        = .ok (QueryTypeMap.setEntry PerseestQuery.types "singular" .boolean) ∧
    QueryTypeMap.lookup (QueryTypeMap.setEntry PerseestQuery.types "singular" .boolean)
        "singular" = some .boolean ∧
    (∃ m2, QueryTypeMap.set PerseestQuery.types (.str "") (.inr Transform.boolean) = .ok m2) :=
  ⟨(claim6_set_spec Transform PerseestQuery.types (.str "singular")
      (.inr Transform.boolean)).2.1 "singular" .boolean,
   (claim6_set_spec Transform PerseestQuery.types (.str "singular")
      (.inr Transform.boolean)).2.2 "singular" .boolean,
   (claim6_set_spec Transform PerseestQuery.types (.str "") (.inr Transform.boolean)).1.mpr
      ⟨⟨"", rfl⟩, ⟨.boolean, rfl⟩⟩⟩

/-- C8 counterexample: `ids` passed as the string `ab` is iterable, so
construction succeeds; but `ids.concat(primaryKey)` is string
concatenation and `new Set` then splits the result into characters, so
the two-character primary key `pk` is not a member of the resulting
identifier set. -/
theorem claim8_counterexample :
    PerseestConfig.make (.str "t") (.str "pk") (.str "ab") (.arr [])
        = .ok ⟨"t", "pk", [.str "a", .str "b", .str "p", .str "k"],
            [.str "a", .str "b", .str "p", .str "k"]⟩ ∧
    (JsVal.str "pk") ∉ [JsVal.str "a", .str "b", .str "p", .str "k"] := by
  refine ⟨rfl, ?_⟩
  simp


/-- C8 as amended: when `ids` is given as an array (and the remaining
arguments let construction succeed), the constructed config satisfies
the invariant — the primary key is a member of the identifier set and
every identifier is a member of the column set. -/
theorem claim8_array_ids_invariant :
    ∀ (t pk : String) (l : List JsVal) (cols : JsVal) (c : PerseestConfig),
      PerseestConfig.make (.str t) (.str pk) (.arr l) cols = .ok c →
      (JsVal.str pk) ∈ c.ids ∧ ∀ v ∈ c.ids, v ∈ c.columns := by
  intro t pk l cols c h
  by_cases ht : t = ""
  · simp [PerseestConfig.make, ht] at h
  by_cases hpk : pk = ""
  · simp [PerseestConfig.make, ht, hpk] at h
  cases cols with
  | arr l2 =>
      have hm : PerseestConfig.make (.str t) (.str pk) (.arr l) (.arr l2)
          = .ok ⟨t, pk, l ++ [.str pk], (l ++ [.str pk]) ++ l2⟩ := by
        simp [PerseestConfig.make, ht, hpk, JsVal.concatStr, JsVal.setElems, setUnion,
          JsVal.isIterable]
      rw [hm] at h
      have hc := Except.ok.inj h
      subst hc
      exact ⟨List.mem_append_right l (List.mem_singleton.mpr rfl),
        fun v hv => List.mem_append_left _ hv⟩
  | str s =>
      by_cases hs : s = ""
      · subst hs
        simp [PerseestConfig.make, ht, hpk, JsVal.isIterable] at h
      · have hm : PerseestConfig.make (.str t) (.str pk) (.arr l) (.str s)
            = .ok ⟨t, pk, l ++ [.str pk],
                (l ++ [.str pk]) ++ s.data.map (fun ch => .str (String.mk [ch]))⟩ := by
          simp [PerseestConfig.make, ht, hpk, hs, JsVal.concatStr, JsVal.setElems, setUnion,
            JsVal.isIterable]
        rw [hm] at h
        have hc := Except.ok.inj h
        subst hc
        exact ⟨List.mem_append_right l (List.mem_singleton.mpr rfl),
          fun v hv => List.mem_append_left _ hv⟩
  | undefined => simp [PerseestConfig.make, ht, hpk, JsVal.isIterable] at h
  | null => simp [PerseestConfig.make, ht, hpk, JsVal.isIterable] at h
  | boolean b => simp [PerseestConfig.make, ht, hpk, JsVal.isIterable] at h
  | num n => simp [PerseestConfig.make, ht, hpk, JsVal.isIterable] at h
  | obj fs => simp [PerseestConfig.make, ht, hpk, JsVal.isIterable] at h

/-- Witness for C8: a config built with `ids = ['a']`, primary key
`pk` and columns `['c']`: the primary key is in the identifier set and
the identifier set is contained in the column set. -/
theorem claim8_witness :
    (JsVal.str "pk") ∈ (⟨"t", "pk", [.str "a", .str "pk"],
        [.str "a", .str "pk", .str "c"]⟩ : PerseestConfig).ids ∧
    ∀ v ∈ (⟨"t", "pk", [.str "a", .str "pk"],
        [.str "a", .str "pk", .str "c"]⟩ : PerseestConfig).ids,
      v ∈ (⟨"t", "pk", [.str "a", .str "pk"],
        [.str "a", .str "pk", .str "c"]⟩ : PerseestConfig).columns :=
  claim8_array_ids_invariant "t" "pk" [.str "a"] (.arr [.str "c"])
    ⟨"t", "pk", [.str "a", .str "pk"], [.str "a", .str "pk", .str "c"]⟩ rfl
